import Mathlib

/-!
Verification development for the dry-run trading simulator.

Shallow embedding of the position-lifecycle core of the repository:
`src/trading_bot.py` (entry monitor, auto-sell trigger engine, manual sell,
PnL forwarding), `src/database.py` (the `trades` and `transactions` tables)
and `src/jupiter_client.py` (`get_quote_and_swap` return shape).

Python `float` arithmetic is idealized as exact arithmetic over `ℚ`.
External I/O (market-data fetches, Jupiter quotes, notifications) is
abstracted as oracle parameters; database sessions become explicit state.
The dry-run execution mode, which the repository is named for, is the
modeled mode: there the quantity recorded as sold equals the quantity the
bot requested (`ca_sold = sell_amount_ca`, trading_bot.py lines 250, 364).
-/

namespace DryRunSim

/-- Row of the `trades` table (database.py lines 15-28), restricted to the
columns the verified properties concern (`unrealized_pnl_sol` and the two
timestamps are bookkeeping not touched by any claim). `status` is one of
the strings `"active"`, `"completed"`, `"cancelled"` (database.py line 26). -/
structure Trade where
  ca_address : String
  buy_mc_usd : ℚ
  initial_sol_spent : ℚ
  initial_ca_bought : ℚ
  current_ca_held : ℚ
  realized_pnl_sol : ℚ
  status : String
deriving DecidableEq

/-- Row of the `transactions` table (database.py lines 30-42), restricted to
the columns the verified properties concern. -/
structure Transaction where
  tx_type : String
  sol_amount : ℚ
  ca_amount : ℚ
  pnl_realized_this_tx : ℚ
deriving DecidableEq

/-- The `sell_triggers` dict of trading_bot.py lines 209-214, in Python
insertion order: `{25: 0.25, 50: 0.50, 75: 0.75, 100: 1.00}`.  Note the
second components (the `sell_fraction` values) are never read by the loop
body in the source. -/
def sell_triggers : List (ℚ × ℚ) := [(25, 25/100), (50, 50/100), (75, 75/100), (100, 1)]

/-- `sell_amount_ca = trade.initial_ca_bought * 0.25` (trading_bot.py line
226): every auto-sell chunk is 25% of the original entry quantity. -/
def sell_amount_ca (t : Trade) : ℚ := t.initial_ca_bought * (25/100)

/-- `cost_basis_for_chunk = (initial_sol_spent / initial_ca_bought) * ca_sold
if initial_ca_bought > 0 else 0` (trading_bot.py lines 277 and 394). -/
def cost_basis_for_chunk (t : Trade) (ca_sold : ℚ) : ℚ :=
  if t.initial_ca_bought > 0 then t.initial_sol_spent / t.initial_ca_bought * ca_sold else 0

/-- `pnl_this_tx = sol_received - cost_basis_for_chunk` (trading_bot.py
lines 278 and 395). -/
def pnl_for_fill (t : Trade) (sol_received ca_sold : ℚ) : ℚ :=
  sol_received - cost_basis_for_chunk t ca_sold

/-- The in-place trade mutation on a successful sell:
`trade.current_ca_held -= ca_sold; trade.realized_pnl_sol += pnl_this_tx`
(trading_bot.py lines 280-281 and 397-398). -/
def apply_sell (t : Trade) (sol_received ca_sold : ℚ) : Trade :=
  { t with current_ca_held := t.current_ca_held - ca_sold,
           realized_pnl_sol := t.realized_pnl_sol + pnl_for_fill t sol_received ca_sold }

/-- The `for trigger_percent, sell_fraction in sell_triggers.items()` loop
(trading_bot.py lines 217-322), for one trade with the gain percentage
`pct` fixed before the loop.  `quote` abstracts the dry-run call to
`get_quote_and_swap` for the chunk (lines 252-267): `some sol_received`
when a simulated transaction is produced, `none` when the quote fails
(the "AUTO-SELL FAILED" branch, no state change).  The guard is
`percentage_increase >= trigger_percent and current_ca_held >=
sell_amount_ca * 0.99` (lines 228-229); the amount passed to the quote is
`int(sell_amount_ca * 10**token_decimals)` with the placeholder
`token_decimals = 6` (lines 244-246).  Each fire records one `sell_auto`
transaction (lines 295-306); the result pairs it with the
`trigger_percent` named in the fire notification (lines 231-237). -/
def run_triggers (quote : ℤ → Option ℚ) (pct : ℚ) :
    Trade → List (ℚ × ℚ) → Trade × List (ℚ × Transaction)
  | t, [] => (t, [])
  | t, trig :: rest =>
    if pct ≥ trig.1 ∧ t.current_ca_held ≥ sell_amount_ca t * (99/100) then
      match quote (Int.floor (sell_amount_ca t * 10 ^ 6)) with
      | some sol_received =>
        let ca_sold := sell_amount_ca t
        let tx : Transaction :=
          { tx_type := "sell_auto", sol_amount := sol_received, ca_amount := ca_sold,
            pnl_realized_this_tx := pnl_for_fill t sol_received ca_sold }
        let r := run_triggers quote pct (apply_sell t sol_received ca_sold) rest
        (r.1, (trig.1, tx) :: r.2)
      | none => run_triggers quote pct t rest
    else run_triggers quote pct t rest

/-- `current_price_per_token_usd = (current_mc / trade.initial_ca_bought)
if trade.initial_ca_bought else 0` (trading_bot.py line 200). -/
def price_per_token (t : Trade) (current_mc : ℚ) : ℚ :=
  if t.initial_ca_bought ≠ 0 then current_mc / t.initial_ca_bought else 0

/-- `buy_price_per_token_usd = (trade.buy_mc_usd / trade.initial_ca_bought)
if trade.initial_ca_bought else 0` (trading_bot.py line 201). -/
def buy_price_per_token (t : Trade) : ℚ :=
  if t.initial_ca_bought ≠ 0 then t.buy_mc_usd / t.initial_ca_bought else 0

/-- `percentage_increase = ((current - buy) / buy) * 100` (trading_bot.py
line 207). -/
def percentage_increase (t : Trade) (current_mc : ℚ) : ℚ :=
  (price_per_token t current_mc - buy_price_per_token t) / buy_price_per_token t * 100

/-- The completion check after the trigger loop (trading_bot.py lines
324-328): `if trade.current_ca_held < 1e-6 and trade.status !=
"completed": trade.status = "completed"`. -/
def complete_if_empty (r : Trade × List (ℚ × Transaction)) : Trade × List (ℚ × Transaction) :=
  if r.1.current_ca_held < 1 / 1000000 ∧ r.1.status ≠ "completed" then
    ({ r.1 with status := "completed" }, r.2)
  else r

/-- One pass of `monitor_auto_sell_triggers` over a single trade
(trading_bot.py lines 193-328).  Non-"active" trades are not returned by
the query at line 192.  `mc = none` models an unavailable market cap
(skip, lines 195-197); a zero buy price skips the trade (lines 203-205,
which also skips the completion check).  The trigger loop runs only when
`trade.current_ca_held > 0` (line 216); the completion check follows it. -/
def auto_sell_step (mc : Option ℚ) (quote : ℤ → Option ℚ) (t : Trade) :
    Trade × List (ℚ × Transaction) :=
  if t.status = "active" then
    match mc with
    | none => (t, [])
    | some current_mc =>
      if buy_price_per_token t = 0 then (t, [])
      else
        complete_if_empty
          (if t.current_ca_held > 0 then
            run_triggers quote (percentage_increase t current_mc) t sell_triggers
          else (t, []))
  else (t, [])

/-- `handle_manual_sell_command` for one trade (trading_bot.py lines
337-434).  The query at line 340 only finds an `"active"` trade; a trade
holding nothing is closed without a swap (`status = "completed"`, lines
345-350); otherwise the whole `current_ca_held` is sold in one quote call
(`ca_sold = trade.current_ca_held`, line 364), one `sell_manual`
transaction is recorded (lines 406-417) and the status becomes
`"completed"` (line 400).  A failed quote changes nothing (line 429). -/
def handle_manual_sell (quote : ℤ → Option ℚ) (t : Trade) : Trade × List Transaction :=
  if t.status = "active" then
    if t.current_ca_held ≤ 0 then ({ t with status := "completed" }, [])
    else
      let ca_sold := t.current_ca_held
      match quote (Int.floor (t.current_ca_held * 10 ^ 6)) with
      | some sol_received =>
        ({ apply_sell t sol_received ca_sold with status := "completed" },
          [{ tx_type := "sell_manual", sol_amount := sol_received, ca_amount := ca_sold,
             pnl_realized_this_tx := pnl_for_fill t sol_received ca_sold }])
      | none => (t, [])
  else (t, [])

/-- An exit-side event on one position: one auto-sell scheduler tick, or
one operator manual-sell command, each with its external oracles. -/
inductive ExitEvent where
  | autoTick (mc : Option ℚ) (quote : ℤ → Option ℚ)
  | manualSell (quote : ℤ → Option ℚ)

/-- Apply one exit event to a trade, returning the updated trade and the
exit transactions recorded by that event. -/
def exit_step (t : Trade) : ExitEvent → Trade × List Transaction
  | .autoTick mc quote =>
    let r := auto_sell_step mc quote t
    (r.1, r.2.map Prod.snd)
  | .manualSell quote => handle_manual_sell quote t

/-- Run a sequence of exit events, accumulating all recorded exit
transactions in order. -/
def exit_run (t : Trade) : List ExitEvent → Trade × List Transaction
  | [] => (t, [])
  | e :: es =>
    let r := exit_step t e
    let r2 := exit_run r.1 es
    (r2.1, r.2 ++ r2.2)

/-- Total asset quantity across a list of recorded exit transactions. -/
def sum_ca (txs : List Transaction) : ℚ := (txs.map Transaction.ca_amount).sum

/-- `db.query(Trade).filter_by(ca_address=ca_address, status="active").first()`
(trading_bot.py line 39): the first trade for this asset whose status is
`"active"`. -/
def find_active (trades : List Trade) (ca : String) : Option Trade :=
  (trades.filter fun tr => tr.ca_address == ca && tr.status == "active").head?

/-- Any trade row holding the asset address, regardless of status: the
scope of the `unique=True` constraint on `Trade.ca_address` (database.py
line 19), which ranges over every row of the table. -/
def find_any (trades : List Trade) (ca : String) : Option Trade :=
  (trades.filter fun tr => tr.ca_address == ca).head?

/-- Outcome of one ledger open attempt. -/
inductive OpenResult where
  /-- The new trade row was inserted and committed (trading_bot.py 137-146). -/
  | created
  /-- The duplicate-active check rejected the command with an error message
  and returned before any monitoring (trading_bot.py lines 39-42). -/
  | stateConflict
  /-- The status check passed, but the insert at trading_bot.py 137-146
  violated the `unique=True` constraint on `ca_address` (database.py line
  19): `db.commit()` raises `IntegrityError`, swallowed by the handler at
  lines 183-185, and no row is created. -/
  | integrityError
deriving DecidableEq

/-- The ledger `open` operation: the duplicate-active check of
`handle_buy_command` (trading_bot.py lines 39-42: an existing active trade
rejects the command and leaves the database untouched), then the insertion
of the new trade row on a successful entry (lines 137-146, `db.add(trade);
db.commit()`).  The insert itself is guarded by the table-wide UNIQUE
constraint on `ca_address` (database.py line 19): any pre-existing row for
the asset — also a completed or cancelled one — makes the commit raise
`IntegrityError` (caught at lines 183-185), creating nothing.  Returns the
resulting trade list and the outcome. -/
def open_position (trades : List Trade) (nt : Trade) : List Trade × OpenResult :=
  match find_active trades nt.ca_address with
  | some _ => (trades, OpenResult.stateConflict)
  | none =>
    match find_any trades nt.ca_address with
    | some _ => (trades, OpenResult.integrityError)
    | none => (trades ++ [nt], OpenResult.created)

/-- `_transfer_realized_pnl` (trading_bot.py lines 493-535).  The state is
the list of SOL amounts forwarded to the PnL wallet so far; a non-positive
amount returns without transferring (lines 494-496), anything else
performs the (real or simulated) transfer of exactly that amount.  The
function receives only an amount: neither `Trade` nor `Transaction`
(database.py lines 15-42) carries any settled/forwarded marker, and no
such marker is consulted or written anywhere in this function. -/
def transfer_realized_pnl (transfers : List ℚ) (pnl_amount_sol : ℚ) : List ℚ :=
  if pnl_amount_sol ≤ 0 then transfers else transfers ++ [pnl_amount_sol]

/-- `num_checks = 10 if is_dry_run else 60` (trading_bot.py line 86). -/
def num_checks (is_dry_run : Bool) : ℕ := if is_dry_run then 10 else 60

/-- The trade row created on a successful entry buy (trading_bot.py lines
137-144): `current_ca_held` starts equal to `initial_ca_bought`, realized
PnL at zero, status at its database default `"active"`. -/
def mk_entry_trade (ca : String) (mc sol_spent ca_bought : ℚ) : Trade :=
  { ca_address := ca, buy_mc_usd := mc, initial_sol_spent := sol_spent,
    initial_ca_bought := ca_bought, current_ca_held := ca_bought,
    realized_pnl_sol := 0, status := "active" }

/-- The polling loop of `_monitor_and_buy` (trading_bot.py lines 89-181):
check `i` fetches the market cap (`mcap i`, `none` when unavailable — line
174); if it is at or below the target the buy is attempted (`buy i = some
(sol_spent, ca_bought)` on success, `none` on the "BUY FAILED ...
Retrying monitor" branch at line 171).  A successful buy creates the trade
and returns (line 168); exhausting the checks is the "Target MC not
reached after N checks" timeout (line 181), creating nothing. -/
def monitor_loop (ca : String) (target : ℚ) (mcap : ℕ → Option ℚ)
    (buy : ℕ → Option (ℚ × ℚ)) : ℕ → ℕ → Option Trade
  | _, 0 => none
  | i, n + 1 =>
    match mcap i with
    | some mc =>
      if mc ≤ target then
        match buy i with
        | some tr => some (mk_entry_trade ca mc tr.1 tr.2)
        | none => monitor_loop ca target mcap buy (i + 1) n
      else monitor_loop ca target mcap buy (i + 1) n
    | none => monitor_loop ca target mcap buy (i + 1) n

/-- `_monitor_and_buy` (trading_bot.py lines 82-187): run the polling loop
for `num_checks` checks; `some t` is the Bought outcome creating trade
`t`, `none` is the EntryTimeout outcome. -/
def monitor_and_buy (ca : String) (target : ℚ) (mcap : ℕ → Option ℚ)
    (buy : ℕ → Option (ℚ × ℚ)) (is_dry_run : Bool) : Option Trade :=
  monitor_loop ca target mcap buy 0 (num_checks is_dry_run)

/-- Ledger entries created for the monitored asset by one monitor run. -/
def trades_created : Option Trade → List Trade
  | none => []
  | some t => [t]

/-- Control-flow skeleton of the `for trade in trades` loop of
`monitor_auto_sell_triggers` (trading_bot.py lines 193-328) under its
function-scope `try`/`except` (lines 191 and 330-332).  `raises t = true`
abstracts an uncaught exception escaping the body while processing trade
`t` (for example the `TypeError` raised at line 270 when
`get_quote_and_swap` returns a bare `None`, or a notifier failure); the
exception propagates out of the loop to the single handler, so trades
after the raising one are not processed that tick.  The handler catches
the exception, so the function itself always returns normally; the result
is the list of trades whose processing completed this tick. -/
def monitor_tick_processed (raises : Trade → Bool) : List Trade → List Trade
  | [] => []
  | t :: rest => if raises t then [] else t :: monitor_tick_processed raises rest

/-- The `while True` scheduler of `run_scheduled_tasks` (trading_bot.py
lines 538-556), unrolled over a list of per-tick exception oracles: each
tick invokes `monitor_auto_sell_triggers`, which never propagates an
exception, so every tick runs. -/
def run_scheduled_ticks (trades : List Trade) : List (Trade → Bool) → List (List Trade)
  | [] => []
  | o :: os => monitor_tick_processed o trades :: run_scheduled_ticks trades os

/-- Shape of a value returned by `get_quote_and_swap`
(jupiter_client.py lines 202-345): either a Python 3-tuple
`(tx_signature, sol_amount, ca_amount)` — with a possibly-`None`
signature — or the bare `None` of the `return None` at line 345. -/
inductive SwapReturn where
  | triple (tx_sig : Option String) (amount_a amount_b : ℚ)
  | bareNone
deriving DecidableEq

/-- The externally-determined outcome of one `get_quote_and_swap` call.
`dry…` constructors are the `DRY_RUN` branch (jupiter_client.py lines
210-249), `real…` constructors the real-swap branch (lines 251-345); each
constructor corresponds to one exit point of the source. -/
inductive SwapOutcome where
  /-- `requests.RequestException` inside the dry-run quote (lines 247-249). -/
  | dryRequestException
  /-- dry-run quote missing `outAmount` (lines 224-226). -/
  | dryInvalidQuote
  /-- dry-run quote succeeded; buy and sell branches (lines 237-246). -/
  | dryQuoteOk (is_buy : Bool) (amount_in amount_out : ℚ)
  /-- `requests.RequestException` anywhere in the real path (lines 343-345). -/
  | realRequestException
  /-- real quote missing `outAmount` (lines 264-266). -/
  | realInvalidQuote
  /-- swap response missing `swapTransaction` (lines 287-289). -/
  | realNoSwapTransaction
  /-- `sendTransaction` returned no signature (lines 307-309). -/
  | realSendFailed
  /-- confirmed transaction carries an error (lines 324-326). -/
  | realTxFailed
  /-- confirmation polling timed out (lines 330-332). -/
  | realConfirmTimeout
  /-- real swap confirmed; buy and sell branches (lines 335-342). -/
  | realConfirmedOk (tx_signature : String) (is_buy : Bool) (amount_in amount_out : ℚ)
deriving DecidableEq

/-- `get_quote_and_swap` (jupiter_client.py lines 202-345) as a map from
the external outcome to the returned value; every arm is one `return`
statement of the source, in source order. -/
def get_quote_and_swap : SwapOutcome → SwapReturn
  | .dryInvalidQuote => .triple none 0 0
  | .dryQuoteOk _ amount_in amount_out => .triple (some "DRY_RUN_SIMULATED_TX") amount_in amount_out
  | .dryRequestException => .triple none 0 0
  | .realInvalidQuote => .triple none 0 0
  | .realNoSwapTransaction => .triple none 0 0
  | .realSendFailed => .triple none 0 0
  | .realTxFailed => .triple none 0 0
  | .realConfirmTimeout => .triple none 0 0
  | .realConfirmedOk sig _ amount_in amount_out => .triple (some sig) amount_in amount_out
  | .realRequestException => .bareNone

/-- Caller-side tuple unpacking `tx_sig, sol_received, ca_sold = await
self.jupiter_client.get_quote_and_swap(...)` (trading_bot.py lines 130,
270, 384): succeeds only on a 3-tuple; unpacking a bare `None` raises
`TypeError`, modeled as `none`. -/
def unpack_swap_result : SwapReturn → Option (Option String × ℚ × ℚ)
  | .triple s a b => some (s, a, b)
  | .bareNone => none

/-- Total asset quantity across the fired-trigger records of one tick. -/
def sum_ca_fired (l : List (ℚ × Transaction)) : ℚ := (l.map fun p => p.2.ca_amount).sum

/-- Reachability invariant of a position under the exit engine: the entry
quantity is nonnegative and the held quantity is a whole number of
quarter-chunks of it, at most four.  Freshly created positions satisfy it
with four chunks, every exit fill of the engine removes exactly one chunk
(or empties the position), and it forces `current_ca_held ≥ 0`. -/
def TradeInv (t : Trade) : Prop :=
  0 ≤ t.initial_ca_bought ∧ ∃ k : ℕ, k ≤ 4 ∧ t.current_ca_held = t.initial_ca_bought * (k / 4)

/-- Concrete position of spec Scenario A: an entry of 10 SOL bought
1,000,000 tokens at market cap 100, nothing sold yet. -/
def t0 : Trade :=
  { ca_address := "CA0", buy_mc_usd := 100, initial_sol_spent := 10,
    initial_ca_bought := 1000000, current_ca_held := 1000000,
    realized_pnl_sol := 0, status := "active" }

/-- Quote oracle answering every sell quote with 3.5 SOL of proceeds. -/
def q0 : ℤ → Option ℚ := fun _ => some (7/2)

/-- The transaction recorded when the 25% trigger fires on `t0` at market
cap 130 with proceeds 3.5 SOL. -/
def tx25 : Transaction :=
  { tx_type := "sell_auto", sol_amount := 7/2, ca_amount := 250000, pnl_realized_this_tx := 1 }

/-- An active position holding zero tokens (a dry-run entry whose
simulated quote reported zero tokens bought creates exactly this shape). -/
def t_zero : Trade :=
  { ca_address := "CA0", buy_mc_usd := 100, initial_sol_spent := 10,
    initial_ca_bought := 0, current_ca_held := 0,
    realized_pnl_sol := 0, status := "active" }

/-- A completed position on the asset of `t0`. -/
def t_done : Trade :=
  { ca_address := "CA0", buy_mc_usd := 100, initial_sol_spent := 10,
    initial_ca_bought := 1000000, current_ca_held := 0,
    realized_pnl_sol := 1, status := "completed" }

/-- Concrete position of spec Scenario C: 600,000 tokens still held. -/
def t600 : Trade :=
  { ca_address := "CA6", buy_mc_usd := 100, initial_sol_spent := 10,
    initial_ca_bought := 1000000, current_ca_held := 600000,
    realized_pnl_sol := 1, status := "active" }

/-- Two active positions on distinct assets, for the scheduler-tick
isolation claim. -/
def tA : Trade :=
  { ca_address := "A", buy_mc_usd := 100, initial_sol_spent := 10,
    initial_ca_bought := 1000000, current_ca_held := 1000000,
    realized_pnl_sol := 0, status := "active" }

/-- Second of the two positions for the scheduler-tick isolation claim. -/
def tB : Trade :=
  { ca_address := "B", buy_mc_usd := 200, initial_sol_spent := 20,
    initial_ca_bought := 2000000, current_ca_held := 2000000,
    realized_pnl_sol := 0, status := "active" }

/-- Exception oracle: processing the position on asset "A" raises. -/
def raisesA : Trade → Bool := fun t => t.ca_address == "A"

/-- One-event history: a single auto-sell tick at market cap 130 against
the `q0` quote oracle. -/
def evs0 : List ExitEvent := [ExitEvent.autoTick (some 130) q0]

/-- Quote oracle answering every sell quote with 5 SOL of proceeds. -/
def q5 : ℤ → Option ℚ := fun _ => some 5

/-- A sell fill only changes the held quantity and the realized PnL; the
cost basis of a chunk therefore does not depend on earlier fills. -/
theorem cost_basis_apply_sell (t : Trade) (sol ca q : ℚ) :
    cost_basis_for_chunk (apply_sell t sol ca) q = cost_basis_for_chunk t q := by
  simp [cost_basis_for_chunk, apply_sell]

/-- The reachability invariant forces a nonnegative held quantity. -/
theorem TradeInv.held_nonneg {t : Trade} (h : TradeInv t) : 0 ≤ t.current_ca_held := by
  obtain ⟨hi, k, -, hk⟩ := h
  rw [hk]
  positivity

/-- A chunk sale fired under the engine's quantity guard preserves the
reachability invariant: with the guard `current_ca_held ≥ sell_amount_ca *
0.99`, at least one whole quarter-chunk must remain, so subtracting one
chunk leaves a valid state. -/
theorem apply_sell_inv (t : Trade) (sol : ℚ) (h : TradeInv t)
    (hg : sell_amount_ca t * (99/100) ≤ t.current_ca_held) :
    TradeInv (apply_sell t sol (sell_amount_ca t)) := by
  obtain ⟨hi, k, hk4, hk⟩ := h
  rcases eq_or_lt_of_le hi with hzero | hpos
  · refine ⟨by simpa [apply_sell] using hi, 0, by omega, ?_⟩
    simp [apply_sell, sell_amount_ca, hk, ← hzero]
  · have hk1 : 1 ≤ k := by
      by_contra hlt
      push_neg at hlt
      have hk0 : k = 0 := by omega
      rw [hk0] at hk
      rw [hk] at hg
      simp only [sell_amount_ca] at hg
      push_cast at hg
      nlinarith
    refine ⟨by simpa [apply_sell] using hi, k - 1, by omega, ?_⟩
    have hcast : ((k - 1 : ℕ) : ℚ) = (k : ℚ) - 1 := by
      push_cast [Nat.cast_sub hk1]
      ring
    simp only [apply_sell, sell_amount_ca, hk, hcast]
    ring

/-- Every component of the trigger-loop correctness bundle: fields other
than the held quantity and realized PnL are untouched, the held quantity
drops by exactly the recorded quantities, the reachability invariant is
preserved, and every recorded transaction is a `sell_auto` fill of one
quarter of the original entry quantity whose PnL follows the cost-basis
formula of the trade it was recorded against. -/

theorem run_triggers_spec (quote : ℤ → Option ℚ) (pct : ℚ) (trigs : List (ℚ × ℚ)) :
    ∀ t : Trade,
      (run_triggers quote pct t trigs).1.initial_ca_bought = t.initial_ca_bought
    ∧ (run_triggers quote pct t trigs).1.initial_sol_spent = t.initial_sol_spent
    ∧ (run_triggers quote pct t trigs).1.status = t.status
    ∧ (run_triggers quote pct t trigs).1.current_ca_held
        = t.current_ca_held - sum_ca_fired (run_triggers quote pct t trigs).2
    ∧ (TradeInv t → TradeInv (run_triggers quote pct t trigs).1)
    ∧ ∀ p ∈ (run_triggers quote pct t trigs).2,
        p.2.tx_type = "sell_auto"
      ∧ p.2.ca_amount = t.initial_ca_bought * (25/100)
      ∧ p.2.pnl_realized_this_tx
          = p.2.sol_amount - cost_basis_for_chunk t p.2.ca_amount := by
  induction trigs with
  | nil =>
    intro t
    simp [run_triggers, sum_ca_fired]
  | cons trig rest ih =>
    intro t
    simp only [run_triggers]
    split_ifs with hcond
    · cases hq : quote (Int.floor (sell_amount_ca t * 10 ^ 6)) with
      | none =>
        simpa using ih t
      | some sol =>
        simp only [hq]
        obtain ⟨h1, h2, h3, h4, h5, h6⟩ := ih (apply_sell t sol (sell_amount_ca t))
        refine ⟨?_, ?_, ?_, ?_, ?_, ?_⟩
        · simpa [apply_sell] using h1
        · simpa [apply_sell] using h2
        · simpa [apply_sell] using h3
        · rw [h4]
          simp [apply_sell, sum_ca_fired]
          ring
        · intro hInv
          exact h5 (apply_sell_inv t sol hInv hcond.2)
        · intro p hp
          rcases List.mem_cons.mp hp with hpe | hpr
          · subst hpe
            refine ⟨rfl, by simp [sell_amount_ca], ?_⟩
            simp [pnl_for_fill, sell_amount_ca]
          · obtain ⟨hty, hca, hpnl⟩ := h6 p hpr
            refine ⟨hty, by simpa [apply_sell] using hca, ?_⟩
            rw [hpnl, cost_basis_apply_sell]
    · exact ih t


/-- The reachability invariant only reads the entry quantity and the held
quantity, so it transfers along equal fields. -/
theorem tradeInv_of_fields {a b : Trade} (hi : b.initial_ca_bought = a.initial_ca_bought)
    (hh : b.current_ca_held = a.current_ca_held) (h : TradeInv a) : TradeInv b := by
  obtain ⟨h1, k, hk4, hk⟩ := h
  exact ⟨hi ▸ h1, k, hk4, by rw [hh, hi, hk]⟩

/-- The completion check only rewrites the status string. -/
theorem complete_if_empty_spec (r : Trade × List (ℚ × Transaction)) :
    (complete_if_empty r).1.initial_ca_bought = r.1.initial_ca_bought
  ∧ (complete_if_empty r).1.initial_sol_spent = r.1.initial_sol_spent
  ∧ (complete_if_empty r).1.current_ca_held = r.1.current_ca_held
  ∧ (complete_if_empty r).2 = r.2 := by
  unfold complete_if_empty
  split_ifs <;> simp

/-- Per-tick correctness bundle for the auto-sell pass over one trade:
entry quantity untouched, held quantity drops by exactly the recorded
quantities, reachability invariant preserved, and every recorded fill is
a quarter-chunk `sell_auto` with the cost-basis PnL. -/
theorem auto_sell_step_spec (mc : Option ℚ) (quote : ℤ → Option ℚ) (t : Trade) :
    (auto_sell_step mc quote t).1.initial_ca_bought = t.initial_ca_bought
  ∧ (auto_sell_step mc quote t).1.current_ca_held
      = t.current_ca_held - sum_ca_fired (auto_sell_step mc quote t).2
  ∧ (TradeInv t → TradeInv (auto_sell_step mc quote t).1)
  ∧ ∀ p ∈ (auto_sell_step mc quote t).2,
      p.2.tx_type = "sell_auto"
    ∧ p.2.ca_amount = t.initial_ca_bought * (25/100)
    ∧ p.2.pnl_realized_this_tx = p.2.sol_amount - cost_basis_for_chunk t p.2.ca_amount := by
  cases mc with
  | none =>
    by_cases hact : t.status = "active" <;> simp [auto_sell_step, hact, sum_ca_fired]
  | some cmc =>
    by_cases hact : t.status = "active"
    case neg => simp [auto_sell_step, hact, sum_ca_fired]
    by_cases hbp : buy_price_per_token t = 0
    · simp [auto_sell_step, hact, hbp, sum_ca_fired]
    · have hstep : auto_sell_step (some cmc) quote t
          = complete_if_empty
              (if t.current_ca_held > 0 then
                run_triggers quote (percentage_increase t cmc) t sell_triggers
              else (t, [])) := by
        simp [auto_sell_step, hact, hbp]
      rw [hstep]
      by_cases hheld : t.current_ca_held > 0
      · rw [if_pos hheld]
        obtain ⟨h1, h2, h3, h4, h5, h6⟩ :=
          run_triggers_spec quote (percentage_increase t cmc) sell_triggers t
        obtain ⟨c1, c2, c3, c4⟩ :=
          complete_if_empty_spec (run_triggers quote (percentage_increase t cmc) t sell_triggers)
        refine ⟨c1.trans h1, ?_, ?_, ?_⟩
        · rw [c3, c4, h4]
        · intro hInv
          exact tradeInv_of_fields c1 c3 (h5 hInv)
        · intro p hp
          rw [c4] at hp
          exact h6 p hp
      · rw [if_neg hheld]
        obtain ⟨c1, c2, c3, c4⟩ := complete_if_empty_spec (t, [])
        rw [c4]
        refine ⟨c1, by rw [c3]; simp [sum_ca_fired], ?_, by simp⟩
        intro hInv
        exact tradeInv_of_fields c1 c3 hInv

/-- Correctness bundle for the manual-sell command on one trade. -/
theorem handle_manual_sell_spec (quote : ℤ → Option ℚ) (t : Trade) :
    (handle_manual_sell quote t).1.initial_ca_bought = t.initial_ca_bought
  ∧ (handle_manual_sell quote t).1.current_ca_held
      = t.current_ca_held - sum_ca (handle_manual_sell quote t).2
  ∧ (TradeInv t → TradeInv (handle_manual_sell quote t).1)
  ∧ ∀ tx ∈ (handle_manual_sell quote t).2,
      tx.tx_type = "sell_manual" ∧ tx.ca_amount = t.current_ca_held
    ∧ tx.pnl_realized_this_tx = tx.sol_amount - cost_basis_for_chunk t tx.ca_amount := by
  unfold handle_manual_sell
  split_ifs with hact hheld
  · refine ⟨by simp, by simp [sum_ca], ?_, by simp⟩
    intro hInv
    exact tradeInv_of_fields (by simp) (by simp) hInv
  · cases hq : quote (Int.floor (t.current_ca_held * 10 ^ 6)) with
    | some sol =>
      refine ⟨by simp [apply_sell], ?_, ?_, ?_⟩
      · simp [sum_ca, apply_sell]
      · intro hInv
        exact ⟨by simpa [apply_sell] using hInv.1, 0, by omega, by simp [apply_sell]⟩
      · intro tx htx
        simp only [List.mem_singleton] at htx
        subst htx
        exact ⟨rfl, rfl, rfl⟩
    | none => simp [sum_ca]
  · simp [sum_ca]

/-- Dropping the trigger tags does not change the total quantity. -/
theorem sum_ca_map_snd (l : List (ℚ × Transaction)) :
    sum_ca (l.map Prod.snd) = sum_ca_fired l := by
  simp only [sum_ca, sum_ca_fired, List.map_map]
  rfl

/-- One exit event conserves quantity and preserves the invariant. -/
theorem exit_step_spec (t : Trade) (e : ExitEvent) :
    (exit_step t e).1.current_ca_held = t.current_ca_held - sum_ca (exit_step t e).2
  ∧ (TradeInv t → TradeInv (exit_step t e).1) := by
  cases e with
  | autoTick mc quote =>
    obtain ⟨-, h2, h3, -⟩ := auto_sell_step_spec mc quote t
    exact ⟨by simpa only [exit_step, sum_ca_map_snd] using h2, h3⟩
  | manualSell quote =>
    obtain ⟨-, h2, h3, -⟩ := handle_manual_sell_spec quote t
    exact ⟨h2, h3⟩

/-- A whole exit-event sequence conserves quantity and preserves the
invariant. -/
theorem exit_run_spec : ∀ (events : List ExitEvent) (t : Trade),
    (exit_run t events).1.current_ca_held = t.current_ca_held - sum_ca (exit_run t events).2
  ∧ (TradeInv t → TradeInv (exit_run t events).1) := by
  intro events
  induction events with
  | nil => intro t; simp [exit_run, sum_ca]
  | cons e es ih =>
    intro t
    obtain ⟨hs1, hs2⟩ := exit_step_spec t e
    obtain ⟨hr1, hr2⟩ := ih (exit_step t e).1
    constructor
    · simp only [exit_run]
      rw [hr1, hs1]
      simp [sum_ca]
      ring
    · intro h
      simp only [exit_run]
      exact hr2 (hs2 h)


/-- The active-trade lookup returns nothing exactly when no listed trade
is an active trade on the asset. -/
theorem find_active_eq_none_iff (trades : List Trade) (ca : String) :
    find_active trades ca = none
      ↔ ∀ tr ∈ trades, ¬(tr.ca_address = ca ∧ tr.status = "active") := by
  simp [find_active, List.head?_eq_none_iff, List.filter_eq_nil_iff]

/-- A trade found by the active-trade lookup is a listed active trade on
the asset. -/
theorem find_active_mem {trades : List Trade} {ca : String} {tr : Trade}
    (h : find_active trades ca = some tr) :
    tr ∈ trades ∧ tr.ca_address = ca ∧ tr.status = "active" := by
  have hmem : tr ∈ trades.filter fun x => x.ca_address == ca && x.status == "active" :=
    List.mem_of_mem_head? (Option.mem_def.mpr h)
  have h2 := List.mem_filter.mp hmem
  simpa using h2

/-- The any-row lookup returns nothing exactly when no listed trade holds
the asset address. -/
theorem find_any_eq_none_iff (trades : List Trade) (ca : String) :
    find_any trades ca = none ↔ ∀ tr ∈ trades, ¬ tr.ca_address = ca := by
  simp [find_any, List.head?_eq_none_iff, List.filter_eq_nil_iff]

/-- A trade found by the any-row lookup is a listed trade on the asset. -/
theorem find_any_mem {trades : List Trade} {ca : String} {tr : Trade}
    (h : find_any trades ca = some tr) : tr ∈ trades ∧ tr.ca_address = ca := by
  have hmem : tr ∈ trades.filter fun x => x.ca_address == ca :=
    List.mem_of_mem_head? (Option.mem_def.mpr h)
  simpa using List.mem_filter.mp hmem

/-- If every market-cap observation within the remaining checks stays
strictly above the target, the entry-monitor loop times out with no
trade. -/
theorem monitor_loop_none (ca : String) (target : ℚ) (mcap : ℕ → Option ℚ)
    (buy : ℕ → Option (ℚ × ℚ)) :
    ∀ (n i : ℕ), (∀ j, i ≤ j → j < i + n → ∀ mc, mcap j = some mc → target < mc) →
      monitor_loop ca target mcap buy i n = none := by
  intro n
  induction n with
  | zero => intro i _; rfl
  | succ n ih =>
    intro i h
    have hrec : ∀ j, i + 1 ≤ j → j < (i + 1) + n → ∀ mc, mcap j = some mc → target < mc :=
      fun j hj1 hj2 => h j (by omega) (by omega)
    cases hm : mcap i with
    | none =>
      simp only [monitor_loop, hm]
      exact ih (i + 1) hrec
    | some mc =>
      have hgt : ¬ mc ≤ target := not_le.mpr (h i le_rfl (by omega) mc hm)
      simp only [monitor_loop, hm, if_neg hgt]
      exact ih (i + 1) hrec

/-- An exception raised while processing one trade ends the tick: the
trades before it are the only ones processed. -/
theorem monitor_tick_aborts (raises : Trade → Bool) :
    ∀ (pre : List Trade) (t : Trade) (post : List Trade),
      (∀ u ∈ pre, raises u = false) → raises t = true →
      monitor_tick_processed raises (pre ++ t :: post) = pre := by
  intro pre
  induction pre with
  | nil =>
    intro t post _ ht
    simp [monitor_tick_processed, ht]
  | cons a l ih =>
    intro t post hpre ht
    have ha : raises a = false := hpre a (by simp)
    simp [monitor_tick_processed, ha, ih t post (fun u hu => hpre u (by simp [hu])) ht]

/-- Every scheduled tick runs: the tick function catches the loop
exception, so the scheduler is never halted. -/
theorem run_scheduled_length (trades : List Trade) :
    ∀ os : List (Trade → Bool), (run_scheduled_ticks trades os).length = os.length := by
  intro os
  induction os with
  | nil => rfl
  | cons o os ih => simp [run_scheduled_ticks, ih]


/-- Claim C1 (refuting evaluation): the exit engine keeps no record of
fired tiers, so the same tier fires again on a later tick.  On the
Scenario-A position at a constant +30% gain, the 25% trigger fires on the
first tick (selling 250,000 tokens) and fires again on the immediately
following tick (selling another 250,000, leaving 500,000), contradicting
the at-most-once property the source itself declares as the intended
behaviour in the comments at trading_bot.py lines 218-222. -/
theorem C1_tier_fires_again :
    (auto_sell_step (some 130) q0 t0).2.map Prod.fst = [25]
  ∧ (auto_sell_step (some 130) q0 (auto_sell_step (some 130) q0 t0).1).2.map Prod.fst = [25]
  ∧ (auto_sell_step (some 130) q0 (auto_sell_step (some 130) q0 t0).1).1.current_ca_held
      = 500000 := by
  norm_num [auto_sell_step, run_triggers, sell_triggers, sell_amount_ca, t0, q0,
    apply_sell, pnl_for_fill, cost_basis_for_chunk, buy_price_per_token, price_per_token,
    percentage_increase, complete_if_empty]

/-- Claim C2: for every position starting at its entry quantity and every
sequence of exit events (auto-sell ticks and manual sells, with arbitrary
market data and quote oracles), the remaining `current_ca_held` equals
the entry quantity minus the sum of all recorded exit fill quantities,
and it is never negative after any prefix of the sequence. -/
theorem C2_quantity_conservation (t : Trade) (events : List ExitEvent)
    (h0 : t.current_ca_held = t.initial_ca_bought) (h1 : 0 ≤ t.initial_ca_bought) :
    (exit_run t events).1.current_ca_held = t.initial_ca_bought - sum_ca (exit_run t events).2
  ∧ ∀ pre suf, events = pre ++ suf → 0 ≤ (exit_run t pre).1.current_ca_held := by
  have hInv : TradeInv t := ⟨h1, 4, le_rfl, by rw [h0]; norm_num⟩
  constructor
  · rw [(exit_run_spec events t).1, h0]
  · intro pre suf _
    exact ((exit_run_spec pre t).2 hInv).held_nonneg

/-- Claim C2 witness: the conservation theorem instantiated on the
Scenario-A position with one auto-sell tick that fires the 25% trigger. -/
theorem C2_quantity_conservation_witness :
    t0.current_ca_held = t0.initial_ca_bought
  ∧ (exit_run t0 evs0).1.current_ca_held = t0.initial_ca_bought - sum_ca (exit_run t0 evs0).2
  ∧ 0 ≤ (exit_run t0 evs0).1.current_ca_held
  ∧ sum_ca (exit_run t0 evs0).2 = 250000 := by
  have h := C2_quantity_conservation t0 evs0 rfl (by norm_num [t0])
  refine ⟨rfl, h.1, h.2 evs0 [] (by simp), ?_⟩
  norm_num [evs0, exit_run, exit_step, auto_sell_step, run_triggers, sell_triggers,
    sell_amount_ca, t0, q0, apply_sell, pnl_for_fill, cost_basis_for_chunk,
    buy_price_per_token, price_per_token, percentage_increase, complete_if_empty, sum_ca]

/-- Claim C3: every fill recorded by an auto-sell tick sells exactly
`0.25 * initial_ca_bought` — a fraction of the original entry quantity,
with no dependence on the remaining quantity. -/
theorem C3_exit_quantity_fixed_fraction (t : Trade) (mc : Option ℚ) (quote : ℤ → Option ℚ) :
    ∀ p ∈ (auto_sell_step mc quote t).2,
      p.2.tx_type = "sell_auto" ∧ p.2.ca_amount = t.initial_ca_bought * (25/100) := by
  intro p hp
  obtain ⟨hty, hca, -⟩ := (auto_sell_step_spec mc quote t).2.2.2 p hp
  exact ⟨hty, hca⟩

/-- Claim C3 witness: the 25%-trigger fill of the Scenario-A tick sells
exactly a quarter of the original 1,000,000 entry. -/
theorem C3_exit_quantity_fixed_fraction_witness :
    ((25 : ℚ), tx25) ∈ (auto_sell_step (some 130) q0 t0).2
  ∧ tx25.tx_type = "sell_auto" ∧ tx25.ca_amount = t0.initial_ca_bought * (25/100) := by
  have hm : ((25 : ℚ), tx25) ∈ (auto_sell_step (some 130) q0 t0).2 := by
    norm_num [auto_sell_step, run_triggers, sell_triggers, sell_amount_ca, t0, q0, tx25,
      apply_sell, pnl_for_fill, cost_basis_for_chunk, buy_price_per_token, price_per_token,
      percentage_increase, complete_if_empty]
  exact ⟨hm, C3_exit_quantity_fixed_fraction t0 (some 130) q0 _ hm⟩

/-- Claim C4 counterexample: re-invoking the PnL forwarder with an
already-forwarded positive amount performs a second transfer — the state
grows to two transfers instead of staying unchanged, because no settled
flag exists anywhere in the data model. -/
theorem C4_settlement_not_idempotent :
    transfer_realized_pnl (transfer_realized_pnl [] 1) 1 = [1, 1]
  ∧ transfer_realized_pnl (transfer_realized_pnl [] 1) 1 ≠ transfer_realized_pnl [] 1 := by
  norm_num [transfer_realized_pnl]

/-- Claim C4 amended: the forwarder skips non-positive amounts, but it
keeps no settled flag, so re-invoking it with the same positive realized
amount transfers that amount a second time. -/
theorem C4_settlement_amended (transfers : List ℚ) (pnl : ℚ) :
    (pnl ≤ 0 → transfer_realized_pnl transfers pnl = transfers)
  ∧ (0 < pnl →
      transfer_realized_pnl (transfer_realized_pnl transfers pnl) pnl
        = transfers ++ [pnl, pnl]) := by
  constructor
  · intro h
    simp [transfer_realized_pnl, h]
  · intro h
    simp [transfer_realized_pnl, not_le.mpr h]

/-- Claim C4 witness: the amended forwarder behaviour at the concrete
amounts -1 (skipped) and 1 (transferred twice on re-invocation). -/
theorem C4_settlement_amended_witness :
    ((-1 : ℚ) ≤ 0 ∧ transfer_realized_pnl [] (-1) = [])
  ∧ ((0 : ℚ) < 1 ∧ transfer_realized_pnl (transfer_realized_pnl [] 1) 1 = [] ++ [1, 1]) :=
  ⟨⟨by norm_num, (C4_settlement_amended [] (-1)).1 (by norm_num)⟩,
   ⟨by norm_num, (C4_settlement_amended [] 1).2 (by norm_num)⟩⟩

/-- Claim C5 counterexample: with only a completed trade row on the asset,
the claimed successful open does not happen — the duplicate-active check
passes, but the UNIQUE `ca_address` constraint (database.py line 19) makes
the insert raise `IntegrityError`: the outcome is not `created` and no row
is added, so the claim's "when only a Completed or Cancelled position
exists, the open succeeds and creates a new position" fails here. -/
theorem C5_completed_blocks_open :
    t_done.status = "completed"
  ∧ t_done.ca_address = t0.ca_address
  ∧ (open_position [t_done] t0).2 = OpenResult.integrityError
  ∧ (open_position [t_done] t0).2 ≠ OpenResult.created
  ∧ (open_position [t_done] t0).1 = [t_done] := by
  refine ⟨rfl, rfl, ?_, ?_, ?_⟩ <;>
    simp [open_position, find_active, find_any, t_done, t0]

/-- Claim C5 amended: the StateConflict rejection happens exactly when an
Active trade for the asset exists; any outcome other than creation leaves
the trade list untouched; a creation appends the new row; and a new
position is created exactly under the condition that no row at all exists
for the asset — a Completed or Cancelled row passes the status check but
still blocks creation through the UNIQUE `ca_address` constraint
(IntegrityError, no new position). -/
theorem C5_open_conflict_amended (trades : List Trade) (nt : Trade) :
    ((open_position trades nt).2 = OpenResult.stateConflict
        ↔ ∃ tr ∈ trades, tr.ca_address = nt.ca_address ∧ tr.status = "active")
  ∧ ((open_position trades nt).2 ≠ OpenResult.created →
        (open_position trades nt).1 = trades)
  ∧ ((open_position trades nt).2 = OpenResult.created →
        (open_position trades nt).1 = trades ++ [nt])
  ∧ ((∀ tr ∈ trades, tr.ca_address ≠ nt.ca_address) →
        (open_position trades nt).2 = OpenResult.created) := by
  cases hf : find_active trades nt.ca_address with
  | some tr =>
    obtain ⟨htr, hca, hst⟩ := find_active_mem hf
    have h2 : (open_position trades nt).2 = OpenResult.stateConflict := by
      simp [open_position, hf]
    have h1 : (open_position trades nt).1 = trades := by simp [open_position, hf]
    refine ⟨⟨fun _ => ⟨tr, htr, hca, hst⟩, fun _ => h2⟩, fun _ => h1,
      fun hc => ?_, fun hall => ?_⟩
    · rw [h2] at hc
      simp at hc
    · exact absurd hca (hall tr htr)
  | none =>
    have hnact := (find_active_eq_none_iff trades nt.ca_address).mp hf
    cases hg : find_any trades nt.ca_address with
    | some tr =>
      obtain ⟨htr, hca⟩ := find_any_mem hg
      have h2 : (open_position trades nt).2 = OpenResult.integrityError := by
        simp [open_position, hf, hg]
      have h1 : (open_position trades nt).1 = trades := by simp [open_position, hf, hg]
      refine ⟨⟨fun hsc => ?_, fun hex => ?_⟩, fun _ => h1, fun hc => ?_, fun hall => ?_⟩
      · rw [h2] at hsc
        simp at hsc
      · obtain ⟨u, hu, huca, hust⟩ := hex
        exact absurd ⟨huca, hust⟩ (hnact u hu)
      · rw [h2] at hc
        simp at hc
      · exact absurd hca (hall tr htr)
    | none =>
      have h2 : (open_position trades nt).2 = OpenResult.created := by
        simp [open_position, hf, hg]
      have h1 : (open_position trades nt).1 = trades ++ [nt] := by
        simp [open_position, hf, hg]
      refine ⟨⟨fun hsc => ?_, fun hex => ?_⟩, fun hnc => ?_, fun _ => h1, fun _ => h2⟩
      · rw [h2] at hsc
        simp at hsc
      · obtain ⟨u, hu, huca, hust⟩ := hex
        exact absurd ⟨huca, hust⟩ (hnact u hu)
      · exact absurd h2 hnc

/-- Claim C5 witness: on an empty ledger the open creates and appends the
row; an active trade on the asset yields the StateConflict rejection; a
completed trade on the asset yields a non-created outcome that leaves the
ledger unchanged. -/
theorem C5_open_conflict_amended_witness :
    ((open_position [] t0).2 = OpenResult.created
      ∧ (open_position [] t0).1 = [] ++ [t0])
  ∧ (open_position [t0] t0).2 = OpenResult.stateConflict
  ∧ ((open_position [t_done] t0).2 ≠ OpenResult.created
      ∧ (open_position [t_done] t0).1 = [t_done]) := by
  have hc : (open_position [] t0).2 = OpenResult.created :=
    (C5_open_conflict_amended [] t0).2.2.2 (by simp)
  have hne : (open_position [t_done] t0).2 ≠ OpenResult.created := by
    simp [open_position, find_active, find_any, t_done, t0]
  exact ⟨⟨hc, (C5_open_conflict_amended [] t0).2.2.1 hc⟩,
    (C5_open_conflict_amended [t0] t0).1.mpr ⟨t0, by simp, rfl, rfl⟩,
    ⟨hne, (C5_open_conflict_amended [t_done] t0).2.1 hne⟩⟩

/-- Claim C6: every exit fill (auto-sell or manual) records a realized
PnL of `proceeds - unitCost * quantitySold` with `unitCost =
initial_sol_spent / initial_ca_bought`; on Scenario A (10 SOL entry for
1,000,000 tokens, +30% price, 250,000 sold for 3.5 SOL) the tick leaves
750,000 tokens held, total realized PnL 1 and a single fill with PnL 1. -/
theorem C6_realized_pnl_formula (t : Trade) (mc : Option ℚ) (quote : ℤ → Option ℚ)
    (hpos : 0 < t.initial_ca_bought) :
    (∀ p ∈ (auto_sell_step mc quote t).2,
        p.2.pnl_realized_this_tx
          = p.2.sol_amount - t.initial_sol_spent / t.initial_ca_bought * p.2.ca_amount)
  ∧ (∀ tx ∈ (handle_manual_sell quote t).2,
        tx.pnl_realized_this_tx
          = tx.sol_amount - t.initial_sol_spent / t.initial_ca_bought * tx.ca_amount)
  ∧ (auto_sell_step (some 130) q0 t0).1.current_ca_held = 750000
  ∧ (auto_sell_step (some 130) q0 t0).1.realized_pnl_sol = 1
  ∧ (auto_sell_step (some 130) q0 t0).2.map (fun p => p.2.pnl_realized_this_tx) = [1] := by
  refine ⟨?_, ?_, ?_, ?_, ?_⟩
  · intro p hp
    obtain ⟨-, -, hpnl⟩ := (auto_sell_step_spec mc quote t).2.2.2 p hp
    rw [hpnl]
    simp [cost_basis_for_chunk, hpos]
  · intro tx htx
    obtain ⟨-, -, hpnl⟩ := (handle_manual_sell_spec quote t).2.2.2 tx htx
    rw [hpnl]
    simp [cost_basis_for_chunk, hpos]
  · norm_num [auto_sell_step, run_triggers, sell_triggers, sell_amount_ca, t0, q0,
      apply_sell, pnl_for_fill, cost_basis_for_chunk, buy_price_per_token, price_per_token,
      percentage_increase, complete_if_empty]
  · norm_num [auto_sell_step, run_triggers, sell_triggers, sell_amount_ca, t0, q0,
      apply_sell, pnl_for_fill, cost_basis_for_chunk, buy_price_per_token, price_per_token,
      percentage_increase, complete_if_empty]
  · norm_num [auto_sell_step, run_triggers, sell_triggers, sell_amount_ca, t0, q0,
      apply_sell, pnl_for_fill, cost_basis_for_chunk, buy_price_per_token, price_per_token,
      percentage_increase, complete_if_empty]

/-- Claim C6 witness: the PnL formula instantiated on the concrete
25%-trigger fill of the Scenario-A tick. -/
theorem C6_realized_pnl_formula_witness :
    0 < t0.initial_ca_bought
  ∧ ((25 : ℚ), tx25) ∈ (auto_sell_step (some 130) q0 t0).2
  ∧ tx25.pnl_realized_this_tx
      = tx25.sol_amount - t0.initial_sol_spent / t0.initial_ca_bought * tx25.ca_amount := by
  have hm : ((25 : ℚ), tx25) ∈ (auto_sell_step (some 130) q0 t0).2 := by
    norm_num [auto_sell_step, run_triggers, sell_triggers, sell_amount_ca, t0, q0, tx25,
      apply_sell, pnl_for_fill, cost_basis_for_chunk, buy_price_per_token, price_per_token,
      percentage_increase, complete_if_empty]
  exact ⟨by norm_num [t0], hm,
    (C6_realized_pnl_formula t0 (some 130) q0 (by norm_num [t0])).1 _ hm⟩

/-- Claim C7 counterexample: with two active positions A and B in one
tick, an exception while processing A aborts the whole loop — B is not
processed in that tick, contradicting per-position failure isolation. -/
theorem C7_tick_not_isolated :
    monitor_tick_processed raisesA [tA, tB] = []
  ∧ tB ∉ monitor_tick_processed raisesA [tA, tB] := by
  refine ⟨?_, ?_⟩ <;> simp [monitor_tick_processed, raisesA, tA, tB]

/-- Claim C7 amended: an exception raised while processing one position
aborts the remainder of that tick — positions before it keep their
committed results, the failing one and all later ones are skipped — but
the tick-level handler catches the exception, so the scheduler loop
itself is never halted: every scheduled tick still runs. -/
theorem C7_tick_abort_amended (raises : Trade → Bool) (pre : List Trade) (t : Trade)
    (post : List Trade) (hpre : ∀ u ∈ pre, raises u = false) (ht : raises t = true) :
    monitor_tick_processed raises (pre ++ t :: post) = pre
  ∧ ∀ os : List (Trade → Bool),
      (run_scheduled_ticks (pre ++ t :: post) os).length = os.length :=
  ⟨monitor_tick_aborts raises pre t post hpre ht,
   fun os => run_scheduled_length (pre ++ t :: post) os⟩

/-- Claim C7 witness: the amended behaviour at the concrete two-position
tick where processing A raises and two scheduler ticks follow. -/
theorem C7_tick_abort_amended_witness :
    monitor_tick_processed raisesA ([] ++ tA :: [tB]) = []
  ∧ (run_scheduled_ticks ([] ++ tA :: [tB]) [raisesA, raisesA]).length = 2 := by
  have h := C7_tick_abort_amended raisesA [] tA [tB] (by simp) (by simp [raisesA, tA])
  exact ⟨h.1, h.2 [raisesA, raisesA]⟩

/-- Claim C8 counterexample: a manual sell on an active position holding
zero tokens records no fill and sets the status to "completed", not to
"cancelled" as the claim states (trading_bot.py line 347). -/
theorem C8_zero_quantity_not_cancelled :
    (handle_manual_sell q0 t_zero).1.status = "completed"
  ∧ (handle_manual_sell q0 t_zero).1.status ≠ "cancelled"
  ∧ (handle_manual_sell q0 t_zero).2 = [] := by
  have hs : (handle_manual_sell q0 t_zero).1.status = "completed" := by
    norm_num [handle_manual_sell, t_zero]
  refine ⟨hs, by rw [hs]; decide, ?_⟩
  norm_num [handle_manual_sell, t_zero]

/-- Claim C8 amended: a manual full exit on an active position sells the
entire remaining quantity in one quote call, records one `sell_manual`
fill and completes the position; if the remaining quantity was already
zero, the position is likewise marked completed (not cancelled) with no
trade performed. -/
theorem C8_manual_full_exit_amended (t : Trade) (quote : ℤ → Option ℚ)
    (hact : t.status = "active") :
    (t.current_ca_held ≤ 0 →
        handle_manual_sell quote t = ({ t with status := "completed" }, []))
  ∧ ∀ sol, 0 < t.current_ca_held →
      quote (Int.floor (t.current_ca_held * 10 ^ 6)) = some sol →
        (handle_manual_sell quote t).1.current_ca_held = 0
      ∧ (handle_manual_sell quote t).1.status = "completed"
      ∧ (handle_manual_sell quote t).2
          = [{ tx_type := "sell_manual", sol_amount := sol, ca_amount := t.current_ca_held,
               pnl_realized_this_tx := pnl_for_fill t sol t.current_ca_held }] := by
  constructor
  · intro hle
    simp [handle_manual_sell, hact, hle]
  · intro sol hpos hq
    have hne : ¬ t.current_ca_held ≤ 0 := not_le.mpr hpos
    simp [handle_manual_sell, hact, hne, hq, apply_sell]

/-- Claim C8 witness: Scenario C — a manual close of a position holding
600,000 tokens sells all 600,000 in one fill and completes the trade. -/
theorem C8_manual_full_exit_amended_witness :
    t600.status = "active" ∧ 0 < t600.current_ca_held
  ∧ (handle_manual_sell q5 t600).1.current_ca_held = 0
  ∧ (handle_manual_sell q5 t600).1.status = "completed"
  ∧ (handle_manual_sell q5 t600).2
      = [{ tx_type := "sell_manual", sol_amount := 5, ca_amount := t600.current_ca_held,
           pnl_realized_this_tx := pnl_for_fill t600 5 t600.current_ca_held }] := by
  have h := (C8_manual_full_exit_amended t600 q5 rfl).2 5 (by norm_num [t600]) rfl
  exact ⟨rfl, by norm_num [t600], h.1, h.2.1, h.2.2⟩

/-- Claim C9: with 10 checks in dry-run mode and 60 otherwise, if no
market-cap observation within the bounded number of checks is at or below
the target, the entry monitor ends in the timeout outcome and creates no
ledger entry for the asset. -/
theorem C9_entry_timeout_no_position (ca : String) (target : ℚ) (mcap : ℕ → Option ℚ)
    (buy : ℕ → Option (ℚ × ℚ)) (is_dry_run : Bool)
    (h : ∀ i < num_checks is_dry_run, ∀ mc, mcap i = some mc → target < mc) :
    num_checks true = 10 ∧ num_checks false = 60
  ∧ monitor_and_buy ca target mcap buy is_dry_run = none
  ∧ trades_created (monitor_and_buy ca target mcap buy is_dry_run) = [] := by
  have hnone : monitor_and_buy ca target mcap buy is_dry_run = none := by
    unfold monitor_and_buy
    exact monitor_loop_none ca target mcap buy (num_checks is_dry_run) 0
      (fun j _ hj2 mc hmc => h j (by omega) mc hmc)
  refine ⟨?_, ?_, hnone, by rw [hnone]; rfl⟩
  · rfl
  · rfl

/-- Claim C9 witness: the timeout theorem instantiated on a dry-run
monitor whose market cap stays at 200 against a target of 100. -/
theorem C9_entry_timeout_no_position_witness :
    monitor_and_buy "CA9" 100 (fun _ => some 200) (fun _ => none) true = none
  ∧ trades_created (monitor_and_buy "CA9" 100 (fun _ => some 200) (fun _ => none) true)
      = [] := by
  have h := C9_entry_timeout_no_position "CA9" 100 (fun _ => some 200) (fun _ => none) true
    (by
      intro i _ mc hmc
      obtain rfl : (200 : ℚ) = mc := Option.some.inj hmc
      norm_num)
  exact ⟨h.2.2.1, h.2.2.2⟩

/-- Claim C10: `get_quote_and_swap` returns the bare `None` exactly on a
network error in the real (non-dry-run) swap path, which is also exactly
the case in which the caller-side three-way tuple unpacking fails; every
other outcome returns a 3-tuple. -/
theorem C10_swap_return_shape (o : SwapOutcome) :
    (get_quote_and_swap o = SwapReturn.bareNone ↔ o = SwapOutcome.realRequestException)
  ∧ (unpack_swap_result (get_quote_and_swap o) = none
      ↔ o = SwapOutcome.realRequestException) := by
  cases o <;> simp [get_quote_and_swap, unpack_swap_result]

end DryRunSim
